import Mathlib

/-!
Shallow embedding of the room-synchronization core of `src/components/Room.tsx`
(class `Room extends React.Component<RoomProps, RoomState>`).

Modelling conventions:
* Numeric playback fields (`volume`, `played`, `loaded`, `duration`,
  `playbackRate`) are JS numbers; they are embedded as `ℚ`.
* `RoomState` carries the fields of the source interface except `owner` and
  `users`, which are display-only roster records (the `owner : UserData` field
  is mutually recursive with `RoomState` in the source); no operation studied
  here reads or writes them.
* A delta sent over the socket is a partial `RoomState`
  (`Partial<RoomState>`): every field is an `Option`, `none` meaning absent.
* React's `this.setState(data)` is a shallow field-wise merge; it is embedded
  as `setState`.
* Outbound `socket.emit("update", d)` calls are collected in order in a
  `List Delta`; calls to `this.player.current?.seekTo(f, 'fraction')` are
  collected in a `List ℚ` of target fractions (the player ref is taken to be
  mounted, as it is whenever these handlers can run).
-/

namespace Room

/-- The component state, `interface RoomState` (Room.tsx lines 16-32), minus
the `owner`/`users` roster fields (see the module comment). -/
structure RoomState where
  id : String
  url : String
  playing : Bool
  volume : ℚ
  muted : Bool
  played : ℚ
  loaded : ℚ
  duration : ℚ
  playbackRate : ℚ
  loop : Bool
  ready : Bool
  buffering : Bool
  seeking : Bool
  deriving DecidableEq, Repr

/-- A partial state update (`Partial<RoomState>`): the payload shape of the
outbound `update` and inbound `status` socket events. A field that is `none`
is absent from the payload. -/
structure Delta where
  id : Option String := none
  url : Option String := none
  playing : Option Bool := none
  volume : Option ℚ := none
  muted : Option Bool := none
  played : Option ℚ := none
  loaded : Option ℚ := none
  duration : Option ℚ := none
  playbackRate : Option ℚ := none
  loop : Option Bool := none
  ready : Option Bool := none
  buffering : Option Bool := none
  seeking : Option Bool := none
  deriving DecidableEq, Repr

/-- React's `this.setState(data)`: shallow field-wise merge of a partial
update into the current state. A field present in `d` overwrites the
corresponding field of `s`; an absent field leaves it untouched. -/
def setState (s : RoomState) (d : Delta) : RoomState :=
  { id := d.id.getD s.id,
    url := d.url.getD s.url,
    playing := d.playing.getD s.playing,
    volume := d.volume.getD s.volume,
    muted := d.muted.getD s.muted,
    played := d.played.getD s.played,
    loaded := d.loaded.getD s.loaded,
    duration := d.duration.getD s.duration,
    playbackRate := d.playbackRate.getD s.playbackRate,
    loop := d.loop.getD s.loop,
    ready := d.ready.getD s.ready,
    buffering := d.buffering.getD s.buffering,
    seeking := d.seeking.getD s.seeking }

/-- `updateState(data)` (Room.tsx lines 107-113): emits the delta on the
socket when the socket exists (`sock = true` models `this.socket` being set),
then merges it into local state with `setState`. Returns the new state and
the list of emitted `update` payloads. -/
def updateState (sock : Bool) (s : RoomState) (d : Delta) :
    RoomState × List Delta :=
  (setState s d, if sock then [d] else [])

/-- Result of running an event handler: the new component state, the
`update` payloads emitted on the socket, and the `seekTo` calls made on the
player (target fractions, in order). -/
structure Effects where
  state : RoomState
  sent : List Delta := []
  seeks : List ℚ := []
  deriving DecidableEq, Repr

/-- The `socket.on("status", ...)` handler (Room.tsx lines 89-98): if
`data.played` is truthy (a nonzero number) and
`Math.abs(this.state.played - data.played) * this.state.duration > 2`, call
`this.player.current?.seekTo(data.played, 'fraction')`; then
`this.setState(data)` unconditionally. The handler emits nothing on the
socket. -/
def onStatus (s : RoomState) (d : Delta) : Effects :=
  { state := setState s d,
    sent := [],
    seeks :=
      match d.played with
      | some p => if p ≠ 0 ∧ |s.played - p| * s.duration > 2 then [p] else []
      | none => [] }

/-- The initial component state set in the constructor (Room.tsx lines
47-65), parameterised by the `roomId` prop. -/
def initialState (roomId : String) : RoomState :=
  { id := roomId,
    url := "https://youtu.be/Bi11Iid2hmo",
    playing := true,
    volume := 3/10,
    muted := true,
    played := 0,
    loaded := 0,
    duration := 0,
    playbackRate := 1,
    loop := false,
    ready := false,
    buffering := false,
    seeking := false }

/-- The `update` payload emitted immediately after the socket is opened in
`componentDidMount` (Room.tsx lines 74-87): the twelve playback fields of
the current state, field by field as written in the source. -/
def componentDidMountEmit (s : RoomState) : List Delta :=
  [{ url := some s.url,
     playing := some s.playing,
     volume := some s.volume,
     muted := some s.muted,
     played := some s.played,
     loaded := some s.loaded,
     duration := some s.duration,
     playbackRate := some s.playbackRate,
     loop := some s.loop,
     ready := some s.ready,
     buffering := some s.buffering,
     seeking := some s.seeking }]

/-- Processes a list of inbound `status` payloads in order through the
`socket.on("status", ...)` handler, threading the state and collecting every
`update` payload the handler emits. -/
def runStatuses (s : RoomState) : List Delta → RoomState × List Delta
  | [] => (s, [])
  | d :: ds =>
      let r := onStatus s d
      let rest := runStatuses r.state ds
      (rest.1, r.sent ++ rest.2)

/-- Every `update` payload a session sends during `componentDidMount`
followed by the processing of an arbitrary sequence `ds` of inbound `status`
broadcasts: the initial emit, then whatever the status handler emits. -/
def sessionSent (s : RoomState) (ds : List Delta) : List Delta :=
  componentDidMountEmit s ++ (runStatuses s ds).2

/-- The socket as far as `componentWillUnmount` reads it: its `connected`
flag. `disconnect()` clears the flag. -/
structure Socket where
  connected : Bool
  deriving DecidableEq, Repr

/-- `componentWillUnmount` (Room.tsx lines 101-105): if
`this.socket!.connected`, call `this.socket!.disconnect()`. Returns the
socket afterwards and the number of `disconnect()` calls made (0 or 1). The
embedding is a total function: the source guard reads a field and the branch
bodies throw nothing. -/
def componentWillUnmount (sk : Socket) : Socket × Nat :=
  if sk.connected then ({ connected := false }, 1) else (sk, 0)

/-- The error the spec assigns to a media change whose URL fails the
capability check. Modelled from the spec (§7 `UnsupportedMediaError`): the
source raises no error type of its own. -/
inductive MediaError where
  | unsupportedMedia : String → MediaError
  deriving DecidableEq, Repr

/-- The "new media" delta published and merged by `load(url)` (Room.tsx
lines 123-131). -/
def newMediaDelta (url : String) : Delta :=
  { url := some url, ready := some false, played := some 0, loaded := some 0,
    playing := some true }

/-- `load(url)` (Room.tsx lines 123-131): `this.updateState({url, ready:
false, played: 0, loaded: 0, playing: true})`. -/
def load (sock : Bool) (s : RoomState) (url : String) :
    RoomState × List Delta :=
  updateState sock s (newMediaDelta url)

/-- `changeToURL(url)` (Room.tsx lines 115-121): if
`ReactPlayer.canPlay(url)` (the external capability check, passed in as
`canPlay`) then `load(url)`, else only `console.log("Error, cannot play
url:", url)`. The result is wrapped in `Except MediaError` to record whether
an error is thrown: the source throws nothing in either branch, so both
branches are `Except.ok`; the failing branch leaves the state untouched and
emits nothing. -/
def changeToURL (canPlay : String → Bool) (sock : Bool) (s : RoomState)
    (url : String) : Except MediaError (RoomState × List Delta) :=
  if canPlay url then Except.ok (load sock s url) else Except.ok (s, [])

/-- Whether a media-change result is a raised error. -/
def raisedMediaError (r : Except MediaError (RoomState × List Delta)) :
    Bool :=
  match r with
  | Except.error _ => true
  | Except.ok _ => false

/-- `handleSeekMouseDown` (Room.tsx lines 133-135):
`this.updateState({seeking: true})`. -/
def handleSeekMouseDown (sock : Bool) (s : RoomState) : Effects :=
  let r := updateState sock s { seeking := some true }
  { state := r.1, sent := r.2, seeks := [] }

/-- `handleSeekChange` (Room.tsx lines 137-139):
`this.updateState({played: parseFloat(e.target.value)})`. -/
def handleSeekChange (sock : Bool) (s : RoomState) (f : ℚ) : Effects :=
  let r := updateState sock s { played := some f }
  { state := r.1, sent := r.2, seeks := [] }

/-- `handleSeekMouseUp` (Room.tsx lines 141-144):
`this.updateState({seeking: false})` then
`this.player.current?.seekTo(parseFloat(e.target.value))`. -/
def handleSeekMouseUp (sock : Bool) (s : RoomState) (f : ℚ) : Effects :=
  let r := updateState sock s { seeking := some false }
  { state := r.1, sent := r.2, seeks := [f] }

/-- Runs a sequence of `handleSeekChange` calls (one per slider value),
threading the state and collecting the emitted payloads. -/
def seekChanges (sock : Bool) (s : RoomState) : List ℚ → RoomState × List Delta
  | [] => (s, [])
  | f :: fs =>
      let e := handleSeekChange sock s f
      let rest := seekChanges sock e.state fs
      (rest.1, e.sent ++ rest.2)

/-- A whole scrub gesture: `handleSeekMouseDown`, then one
`handleSeekChange` per fraction in `fs`, then `handleSeekMouseUp final`.
Collects the state, every emitted `update` payload, and every `seekTo`
call, in order. -/
def seekGesture (sock : Bool) (s : RoomState) (fs : List ℚ) (final : ℚ) :
    Effects :=
  let e1 := handleSeekMouseDown sock s
  let c := seekChanges sock e1.state fs
  let e3 := handleSeekMouseUp sock c.1 final
  { state := e3.state, sent := e1.sent ++ c.2 ++ e3.sent, seeks := e3.seeks }

/-- The `onEnded` player callback (Room.tsx lines 182-191): if
`this.state.loop` then `this.updateState({playing: true, played: 0})` else
`this.updateState({playing: false})`. -/
def onEnded (sock : Bool) (s : RoomState) : RoomState × List Delta :=
  if s.loop then updateState sock s { playing := some true, played := some 0 }
  else updateState sock s { playing := some false }

/-! Helper lemmas shared by the claim theorems. -/

/-- Defaulting twice with the same option is the same as defaulting once. -/
theorem getD_absorb {α : Type} (o : Option α) (a : α) :
    o.getD (o.getD a) = o.getD a := by
  cases o <;> rfl

/-- The `status` handler emits no `update` payload. -/
theorem onStatus_sent_nil (s : RoomState) (d : Delta) :
    (onStatus s d).sent = [] := rfl

/-- Processing any sequence of inbound `status` payloads emits no `update`
payload. -/
theorem runStatuses_sent (ds : List Delta) :
    ∀ s : RoomState, (runStatuses s ds).2 = [] := by
  induction ds with
  | nil => intro s; rfl
  | cons d ds ih =>
      intro s
      simp [runStatuses, onStatus_sent_nil, ih]

/-- With the socket present, `seekChanges` publishes exactly one
`{played: f}` payload per slider value, in order. -/
theorem seekChanges_sent (fs : List ℚ) :
    ∀ s : RoomState,
      (seekChanges true s fs).2 =
        fs.map fun x => ({ played := some x } : Delta) := by
  induction fs with
  | nil => intro s; rfl
  | cons f fs ih =>
      intro s
      simp [seekChanges, handleSeekChange, updateState, ih]

/-! Claim theorems. -/

/-- C6: merging a delta into a state twice yields the same state as merging
it once — the shallow field-wise overwrite `setState` is idempotent. -/
theorem merge_idempotent (s : RoomState) (d : Delta) :
    setState (setState s d) d = setState s d := by
  cases s
  cases d
  simp [setState, getD_absorb]

/-- C9: the `status` handler only merges the inbound delta into local state
via `setState`; it emits no outbound `update` message, and neither does any
whole sequence of inbound `status` broadcasts. -/
theorem status_never_republishes (s : RoomState) (d : Delta)
    (ds : List Delta) :
    (onStatus s d).sent = [] ∧ (onStatus s d).state = setState s d ∧
      (runStatuses s ds).2 = []
    := ⟨rfl, rfl, runStatuses_sent ds s⟩

/-- C9 witness: the handler on the fresh room state and an inbound volume
delta emits nothing and merges the delta. -/
theorem status_never_republishes_witness :
    (onStatus (initialState "r1") { volume := some (1/2) }).sent = [] ∧
      (onStatus (initialState "r1") { volume := some (1/2) }).state =
        setState (initialState "r1") { volume := some (1/2) } ∧
      (runStatuses (initialState "r1") [{ volume := some (1/2) }]).2 = [] :=
  status_never_republishes (initialState "r1") { volume := some (1/2) }
    [{ volume := some (1/2) }]

/-- C7: on joining a room, the session publishes exactly one initial
`update` delta, carrying precisely the twelve current local playback fields
(url, playing, volume, muted, played, loaded, duration, playbackRate, loop,
ready, buffering, seeking; no id), and it is the only — hence the first —
publish of a session consisting of the mount followed by any inbound
broadcasts. -/
theorem join_publishes_defaults_first (s : RoomState) (ds : List Delta) :
    sessionSent s ds =
      [{ url := some s.url, playing := some s.playing,
         volume := some s.volume, muted := some s.muted,
         played := some s.played, loaded := some s.loaded,
         duration := some s.duration, playbackRate := some s.playbackRate,
         loop := some s.loop, ready := some s.ready,
         buffering := some s.buffering, seeking := some s.seeking }] := by
  simp [sessionSent, componentDidMountEmit, runStatuses_sent]

/-- C5: when `onEnded` fires, the delta merged into local state and
published is exactly `{playing: true, played: 0}` when `loop` is set, and
exactly `{playing: false}` otherwise. -/
theorem ended_delta_exact (s : RoomState) :
    (onEnded true s).2 =
      [cond s.loop ({ playing := some true, played := some 0 } : Delta)
        { playing := some false }] ∧
    (onEnded true s).1 =
      setState s
        (cond s.loop ({ playing := some true, played := some 0 } : Delta)
          { playing := some false }) := by
  cases h : s.loop <;> simp [onEnded, updateState, h]

/-- C10: an inbound `status` delta whose `played` field is absent or equal
to 0 never triggers a corrective seek — `if (data.played)` is false for the
number 0 — while the delta is still merged in full into local state. -/
theorem zero_played_never_seeks (s : RoomState) (d : Delta)
    (h : d.played = none ∨ d.played = some 0) :
    (onStatus s d).seeks = [] ∧ (onStatus s d).state = setState s d := by
  refine ⟨?_, rfl⟩
  rcases h with h | h <;> simp [onStatus, h]

/-- C10 witness: a state drifted to `played = 9/10` with `duration = 100`
receives `{played: 0}` — a 90-second drift — yet no seek happens and the
delta still merges. -/
theorem zero_played_never_seeks_witness :
    (({ played := some 0 } : Delta).played = none ∨
      ({ played := some 0 } : Delta).played = some 0) ∧
    ((onStatus { initialState "r" with played := 9/10, duration := 100 }
        { played := some 0 }).seeks = [] ∧
      (onStatus { initialState "r" with played := 9/10, duration := 100 }
          { played := some 0 }).state =
        setState { initialState "r" with played := 9/10, duration := 100 }
          { played := some 0 }) :=
  ⟨Or.inr rfl,
   zero_played_never_seeks
     { initialState "r" with played := 9/10, duration := 100 }
     { played := some 0 } (Or.inr rfl)⟩

/-- C8: starting from a connected socket, running `componentWillUnmount`
twice calls `disconnect()` exactly once in total, and the second run is a
no-op (same socket, zero `disconnect()` calls) that completes without
error. -/
theorem teardown_disconnects_once (sk : Socket) (h : sk.connected = true) :
    (componentWillUnmount sk).2 +
        (componentWillUnmount (componentWillUnmount sk).1).2 = 1 ∧
    componentWillUnmount (componentWillUnmount sk).1 =
      ((componentWillUnmount sk).1, 0) := by
  obtain ⟨c⟩ := sk
  cases c
  · exact Bool.noConfusion h
  · exact ⟨rfl, rfl⟩

/-- C8 witness: double teardown of a connected socket. -/
theorem teardown_disconnects_once_witness :
    (Socket.mk true).connected = true ∧
    ((componentWillUnmount (Socket.mk true)).2 +
        (componentWillUnmount
          (componentWillUnmount (Socket.mk true)).1).2 = 1 ∧
      componentWillUnmount (componentWillUnmount (Socket.mk true)).1 =
        ((componentWillUnmount (Socket.mk true)).1, 0)) :=
  ⟨rfl, teardown_disconnects_once (Socket.mk true) rfl⟩

/-- If the inbound `played` is present, nonzero and past the drift bound,
the handler seeks to it. -/
theorem onStatus_seeks_fire (s : RoomState) (p : ℚ) (d : Delta)
    (hd : d.played = some p) (h0 : p ≠ 0)
    (hg : |s.played - p| * s.duration > 2) :
    (onStatus s d).seeks = [p] := by
  simp [onStatus, hd, h0, hg]

/-- If the inbound `played` is present but the guard fails, no seek. -/
theorem onStatus_seeks_quiet (s : RoomState) (p : ℚ) (d : Delta)
    (hd : d.played = some p)
    (h : ¬(p ≠ 0 ∧ |s.played - p| * s.duration > 2)) :
    (onStatus s d).seeks = [] := by
  have hm : (onStatus s d).seeks =
      if p ≠ 0 ∧ |s.played - p| * s.duration > 2 then [p] else [] := by
    simp [onStatus, hd]
  rw [hm, if_neg h]

/-- C1 counterexample: with local `played = 1/2` and `duration = 100`, an
inbound `{played: 0}` satisfies the claimed firing condition — duration
positive and a 50-second drift — yet no corrective seek is performed,
because the handler's `if (data.played)` guard is false for the number 0. -/
theorem drift_gate_zero_played_counterexample :
    (0 : ℚ) <
      ({ initialState "r" with played := 1/2, duration := 100 } :
        RoomState).duration ∧
    |({ initialState "r" with played := 1/2, duration := 100 } :
        RoomState).played - 0| *
      ({ initialState "r" with played := 1/2, duration := 100 } :
        RoomState).duration > 2 ∧
    (onStatus { initialState "r" with played := 1/2, duration := 100 }
      { played := some 0 }).seeks = [] := by
  refine ⟨by norm_num [initialState], ?_, ?_⟩
  · show |(1 : ℚ)/2 - 0| * 100 > 2
    rw [sub_zero, abs_of_pos (by norm_num : (0 : ℚ) < 1/2)]
    norm_num
  · exact onStatus_seeks_quiet _ 0 _ rfl (by simp)

/-- C1 amended: the corrective seek to the remote position fires exactly
when the inbound delta's `played` field is present and nonzero and
`|localPlayed - remotePlayed| * duration > 2`; the spec's examples hold
(duration 100, local 0.10: remote 0.13 fires, remote 0.115 does not). -/
theorem drift_gate_amended :
    (∀ (s : RoomState) (d : Delta) (p : ℚ),
      (onStatus s d).seeks = [p] ↔
        d.played = some p ∧ p ≠ 0 ∧ |s.played - p| * s.duration > 2) ∧
    (onStatus { initialState "r" with played := 1/10, duration := 100 }
      { played := some (13/100) }).seeks = [13/100] ∧
    (onStatus { initialState "r" with played := 1/10, duration := 100 }
      { played := some (115/1000) }).seeks = [] := by
  refine ⟨?_, ?_, ?_⟩
  · intro s d p
    cases hd : d.played with
    | none => simp [onStatus, hd]
    | some q =>
        by_cases hc : q ≠ 0 ∧ |s.played - q| * s.duration > 2
        · constructor
          · intro h
            have hqp : q = p := by simpa [onStatus, hd, hc] using h
            subst hqp
            exact ⟨rfl, hc.1, hc.2⟩
          · rintro ⟨hp, h0, hg⟩
            injection hp with hqp
            subst hqp
            simp [onStatus, hd, hc]
        · constructor
          · intro h
            exact absurd h (by simp [onStatus, hd, hc])
          · rintro ⟨hp, h0, hg⟩
            injection hp with hqp
            subst hqp
            exact absurd ⟨h0, hg⟩ hc
  · refine onStatus_seeks_fire _ (13/100) _ rfl (by norm_num) ?_
    show |(1 : ℚ)/10 - 13/100| * 100 > 2
    rw [abs_sub_comm, show (13 : ℚ)/100 - 1/10 = 3/100 by norm_num,
      abs_of_pos (by norm_num : (0 : ℚ) < 3/100)]
    norm_num
  · refine onStatus_seeks_quiet _ (115/1000) _ rfl ?_
    rintro ⟨h0, hg⟩
    have hg2 : |(1 : ℚ)/10 - 115/1000| * 100 > 2 := hg
    rw [abs_sub_comm, show (115 : ℚ)/1000 - 1/10 = 3/200 by norm_num,
      abs_of_pos (by norm_num : (0 : ℚ) < 3/200)] at hg2
    norm_num at hg2

/-- C2 counterexample: a state with `seeking = true`, `played = 1/10` and
`duration = 100` receives `{played: 1/2, volume: 7/10}`: the local `played`
is overwritten to `1/2` (not left unchanged) and a corrective seek to `1/2`
is performed — the handler never consults the `seeking` flag. -/
theorem seeking_suppression_counterexample :
    ({ initialState "r" with
        seeking := true, played := 1/10, duration := 100 } :
      RoomState).seeking = true ∧
    (onStatus
        { initialState "r" with
            seeking := true, played := 1/10, duration := 100 }
        { played := some (1/2), volume := some (7/10) }).state.played =
      1/2 ∧
    (1/2 : ℚ) ≠
      ({ initialState "r" with
          seeking := true, played := 1/10, duration := 100 } :
        RoomState).played ∧
    (onStatus
        { initialState "r" with
            seeking := true, played := 1/10, duration := 100 }
        { played := some (1/2), volume := some (7/10) }).seeks = [1/2] := by
  refine ⟨rfl, rfl, by norm_num [initialState], ?_⟩
  refine onStatus_seeks_fire _ (1/2) _ rfl (by norm_num) ?_
  show |(1 : ℚ)/10 - 1/2| * 100 > 2
  rw [abs_sub_comm, show (1 : ℚ)/2 - 1/10 = 2/5 by norm_num,
    abs_of_pos (by norm_num : (0 : ℚ) < 2/5)]
  norm_num

/-- C2 amended: while the local `seeking` flag is true, an inbound `status`
delta is still merged in full — `played` and `volume` present in the delta
overwrite the local fields — and the corrective-seek decision is exactly
what it would be with `seeking` false: the handler does not read the flag.
-/
theorem status_full_merge_while_seeking (s : RoomState) (d : Delta)
    (h : s.seeking = true) :
    (onStatus s d).state = setState s d ∧
    (onStatus s d).state.played = d.played.getD s.played ∧
    (onStatus s d).state.volume = d.volume.getD s.volume ∧
    (onStatus s d).seeks = (onStatus { s with seeking := false } d).seeks :=
  ⟨rfl, rfl, rfl, rfl⟩

/-- C2 amended witness: the seeking state of the counterexample’s shape
with a `{played: 1/2, volume: 7/10}` delta. -/
theorem status_full_merge_while_seeking_witness :
    ({ initialState "r" with
        seeking := true, played := 1/10, duration := 100 } :
      RoomState).seeking = true ∧
    ((onStatus
        { initialState "r" with
            seeking := true, played := 1/10, duration := 100 }
        { played := some (1/3), volume := some (7/10) }).state =
      setState
        { initialState "r" with
            seeking := true, played := 1/10, duration := 100 }
        { played := some (1/3), volume := some (7/10) } ∧
    (onStatus
        { initialState "r" with
            seeking := true, played := 1/10, duration := 100 }
        { played := some (1/3), volume := some (7/10) }).state.played =
      (({ played := some (1/3), volume := some (7/10) } : Delta).played.getD
        ({ initialState "r" with
            seeking := true, played := 1/10, duration := 100 } :
          RoomState).played) ∧
    (onStatus
        { initialState "r" with
            seeking := true, played := 1/10, duration := 100 }
        { played := some (1/3), volume := some (7/10) }).state.volume =
      (({ played := some (1/3), volume := some (7/10) } : Delta).volume.getD
        ({ initialState "r" with
            seeking := true, played := 1/10, duration := 100 } :
          RoomState).volume) ∧
    (onStatus
        { initialState "r" with
            seeking := true, played := 1/10, duration := 100 }
        { played := some (1/3), volume := some (7/10) }).seeks =
      (onStatus
        { { initialState "r" with
              seeking := true, played := 1/10, duration := 100 } with
            seeking := false }
        { played := some (1/3), volume := some (7/10) }).seeks) :=
  ⟨rfl,
   status_full_merge_while_seeking
     { initialState "r" with
         seeking := true, played := 1/10, duration := 100 }
     { played := some (1/3), volume := some (7/10) } rfl⟩

/-- C3 counterexample: the gesture `mouseDown → change(1/2) → mouseUp(1/2)`
from the fresh room state publishes three deltas — `{seeking: true}`,
`{played: 1/2}`, `{seeking: false}` — not one, and no published delta is
the claimed single `{seeking: false, played: 1/2}`. -/
theorem scrub_single_publish_counterexample :
    (seekGesture true (initialState "r") [1/2] (1/2)).sent =
      [({ seeking := some true } : Delta), { played := some (1/2) },
        { seeking := some false }] ∧
    (seekGesture true (initialState "r") [1/2] (1/2)).sent.length ≠ 1 ∧
    (seekGesture true (initialState "r") [1/2] (1/2)).sent ≠
      [({ seeking := some false, played := some (1/2) } : Delta)] := by
  refine ⟨rfl, by decide, ?_⟩
  intro h
  exact absurd (congrArg List.length h) (by decide)

/-- C3 amended: every phase of a scrub gesture publishes: `mouseDown`
publishes `{seeking: true}`, each `change(f)` publishes `{played: f}` (as
well as updating local state), and `mouseUp` publishes `{seeking: false}`
alone — without the final `played` — so a gesture with `n` change events
publishes `n + 2` deltas; the one local player seek happens at `mouseUp`,
to the final fraction. -/
theorem seek_gesture_publishes_each_step (s : RoomState) (fs : List ℚ)
    (final : ℚ) :
    (seekGesture true s fs final).sent =
      ({ seeking := some true } : Delta) ::
        ((fs.map fun x => ({ played := some x } : Delta)) ++
          [({ seeking := some false } : Delta)]) ∧
    (seekGesture true s fs final).seeks = [final] := by
  constructor
  · simp [seekGesture, handleSeekMouseDown, handleSeekMouseUp, updateState,
      seekChanges_sent]
  · rfl

/-- C4 counterexample: on a URL failing the capability check,
`changeToURL` completes normally — the state is untouched and nothing is
published, but no `UnsupportedMediaError` (nor any error) is raised; the
source's else-branch only logs. -/
theorem media_change_no_error_counterexample :
    changeToURL (fun _ => false) true (initialState "r") "unplayable" =
      Except.ok (initialState "r", []) ∧
    raisedMediaError
      (changeToURL (fun _ => false) true (initialState "r") "unplayable") =
      false :=
  ⟨rfl, rfl⟩

/-- C4 amended: on a URL passing the capability check, `changeToURL`
merges exactly the delta `{url, ready: false, played: 0, loaded: 0,
playing: true}` over the prior state and publishes that delta; on a URL
failing the check it leaves the state untouched and publishes nothing, but
raises no error — it only logs a diagnostic and returns. -/
theorem media_change_amended (canPlay : String → Bool) (s : RoomState)
    (u : String) :
    (canPlay u = true →
      changeToURL canPlay true s u =
        Except.ok (setState s (newMediaDelta u), [newMediaDelta u])) ∧
    (canPlay u = false →
      changeToURL canPlay true s u = Except.ok (s, []) ∧
      raisedMediaError (changeToURL canPlay true s u) = false) := by
  constructor
  · intro h
    simp [changeToURL, h, load, updateState]
  · intro h
    simp [changeToURL, h, raisedMediaError]

/-- C4 amended witness: a check that accepts everything and one that
rejects everything, both at the fresh room state. -/
theorem media_change_amended_witness :
    ((fun _ : String => true) "u" = true ∧
      changeToURL (fun _ => true) true (initialState "r") "u" =
        Except.ok (setState (initialState "r") (newMediaDelta "u"),
          [newMediaDelta "u"])) ∧
    ((fun _ : String => false) "u" = false ∧
      (changeToURL (fun _ => false) true (initialState "r") "u" =
          Except.ok (initialState "r", []) ∧
        raisedMediaError
          (changeToURL (fun _ => false) true (initialState "r") "u") =
          false)) :=
  ⟨⟨rfl, (media_change_amended (fun _ => true) (initialState "r") "u").1
      rfl⟩,
   ⟨rfl, (media_change_amended (fun _ => false) (initialState "r") "u").2
      rfl⟩⟩

end Room
